import Mathlib

/-!
Verification development for the Luna face renderer
(`luna_face_renderer.py`): a shallow embedding of the animation state
controller, overlay setters, color parsing and the pixel-grid renderer,
with theorems settling the specification's claims.  Python floats are
modelled by `ℚ` (all arithmetic involved is +, *, /, min, max and
comparisons on decimal literals, which `ℚ` carries exactly); wall-clock
reads (`time.time()`) and random draws (`random.random()`) are passed in
as explicit parameters.
-/

namespace Luna

/-- One entry of `LunaFaceRenderer.EMOTIONS`: six numeric shape
parameters plus the optional boolean feature flags (a missing flag key in
the Python dict reads as `False` via `dict.get(key, False)`, modelled by
the `false` defaults). -/
structure EmotionParams where
  eye_height : ℚ
  eye_width : ℚ
  eye_openness : ℚ
  mouth_curve : ℚ
  mouth_open : ℚ
  mouth_width : ℚ
  angry_brows : Bool := false
  look_side : Bool := false
  tilt_eyes : Bool := false
  sparkle : Bool := false
  cat_face : Bool := false
deriving DecidableEq, Repr

/-- The `"neutral"` profile of the `EMOTIONS` class dictionary (also the
`EMOTIONS.get(..., EMOTIONS["neutral"])` fallback in `_update_animation`). -/
def neutralParams : EmotionParams :=
  { eye_height := 60
    eye_width := 40
    eye_openness := 1
    mouth_curve := 0
    mouth_open := 0
    mouth_width := 25 }

/-- The `"happy"` profile of `EMOTIONS`. -/
def happyParams : EmotionParams :=
  { eye_height := 55
    eye_width := 40
    eye_openness := 0.85
    mouth_curve := 0.5
    mouth_open := 0
    mouth_width := 22 }

/-- The `"sad"` profile of `EMOTIONS`. -/
def sadParams : EmotionParams :=
  { eye_height := 55
    eye_width := 38
    eye_openness := 0.8
    mouth_curve := -0.4
    mouth_open := 0
    mouth_width := 20 }

/-- The `"angry"` profile of `EMOTIONS`. -/
def angryParams : EmotionParams :=
  { eye_height := 45
    eye_width := 45
    eye_openness := 0.5
    mouth_curve := -0.3
    mouth_open := 0
    mouth_width := 25
    angry_brows := true }

/-- The `"surprised"` profile of `EMOTIONS`. -/
def surprisedParams : EmotionParams :=
  { eye_height := 65
    eye_width := 45
    eye_openness := 1.15
    mouth_curve := 0
    mouth_open := 0.4
    mouth_width := 20 }

/-- The `"thinking"` profile of `EMOTIONS`. -/
def thinkingParams : EmotionParams :=
  { eye_height := 55
    eye_width := 40
    eye_openness := 0.9
    mouth_curve := 0.2
    mouth_open := 0
    mouth_width := 18
    look_side := true }

/-- The `"confused"` profile of `EMOTIONS`. -/
def confusedParams : EmotionParams :=
  { eye_height := 60
    eye_width := 40
    eye_openness := 1
    mouth_curve := -0.2
    mouth_open := 0
    mouth_width := 20
    tilt_eyes := true }

/-- The `"excited"` profile of `EMOTIONS`. -/
def excitedParams : EmotionParams :=
  { eye_height := 65
    eye_width := 48
    eye_openness := 1.2
    mouth_curve := 0.8
    mouth_open := 0.2
    mouth_width := 30
    sparkle := true }

/-- The `"cat"` profile of `EMOTIONS`. -/
def catParams : EmotionParams :=
  { eye_height := 60
    eye_width := 40
    eye_openness := 1
    mouth_curve := 0.5
    mouth_open := 0
    mouth_width := 40
    cat_face := true }

/-- The `EMOTIONS` class dictionary: name → profile, `none` for unknown
names. -/
def EMOTIONS : String → Option EmotionParams
  | "neutral" => some neutralParams
  | "happy" => some happyParams
  | "sad" => some sadParams
  | "angry" => some angryParams
  | "surprised" => some surprisedParams
  | "thinking" => some thinkingParams
  | "confused" => some confusedParams
  | "excited" => some excitedParams
  | "cat" => some catParams
  | _ => none

/-- `self.EMOTIONS.get(name, self.EMOTIONS["neutral"])`. -/
def emotionsGet (name : String) : EmotionParams :=
  (EMOTIONS name).getD neutralParams

/-- The animation state fields of `LunaFaceRenderer` mutated by
`_update_animation`, `set_emotion` and `set_gaze`. -/
structure AnimState where
  current_emotion : String
  target_emotion : String
  emotion_transition : ℚ
  blink_progress : ℚ
  is_blinking : Bool
  last_blink_time : ℚ
  blink_interval : ℚ
  gaze_x : ℚ
  gaze_y : ℚ
  target_gaze_x : ℚ
  target_gaze_y : ℚ
  face_offset_x : ℚ
  face_offset_y : ℚ
  current_params : EmotionParams
deriving DecidableEq, Repr

/-- Initial animation state from `__init__`; `t0` is the `time.time()`
read and `r` the `random.random()` draw for the first blink interval. -/
def initAnimState (t0 r : ℚ) : AnimState :=
  { current_emotion := "neutral"
    target_emotion := "neutral"
    emotion_transition := 1
    blink_progress := 0
    is_blinking := false
    last_blink_time := t0
    blink_interval := 3 + r * 2
    gaze_x := 0.5
    gaze_y := 0.5
    target_gaze_x := 0.5
    target_gaze_y := 0.5
    face_offset_x := 0
    face_offset_y := 0
    current_params := neutralParams }

/-- `_lerp`. -/
def lerp (a b t : ℚ) : ℚ := a + (b - a) * t

/-- `set_emotion`: accepts only names present in `EMOTIONS`; the returned
`Bool` is `true` when the emotion was set and `false` when the request was
rejected with a logged warning. -/
def set_emotion (s : AnimState) (emotion : String) : AnimState × Bool :=
  if (EMOTIONS emotion).isSome then
    ({ s with target_emotion := emotion, emotion_transition := 0 }, true)
  else
    (s, false)

/-- `set_gaze`: clamps both axes to [0,1] and sets the gaze target. -/
def set_gaze (s : AnimState) (x y : ℚ) : AnimState :=
  { s with target_gaze_x := max 0 (min 1 x)
           target_gaze_y := max 0 (min 1 y) }

/-- Emotion-transition section of `_update_animation`: advance
`emotion_transition` by `dt * 4` clamped to 1, and assign
`current_emotion := target_emotion` when it reaches 1. -/
def emotionStep (s : AnimState) (dt : ℚ) : AnimState :=
  if s.emotion_transition < 1 then
    let t := min 1 (s.emotion_transition + dt * 4)
    if t ≥ 1 then
      { s with emotion_transition := t, current_emotion := s.target_emotion }
    else
      { s with emotion_transition := t }
  else s

/-- The interpolated parameter record built by the two `for key in ...`
loops of `_update_animation`: the six numeric fields are lerped between
the current and target profiles at `t`; boolean flags are copied verbatim
from the target profile. -/
def lerpParams (current target : EmotionParams) (t : ℚ) : EmotionParams :=
  { eye_height := lerp current.eye_height target.eye_height t
    eye_width := lerp current.eye_width target.eye_width t
    eye_openness := lerp current.eye_openness target.eye_openness t
    mouth_curve := lerp current.mouth_curve target.mouth_curve t
    mouth_open := lerp current.mouth_open target.mouth_open t
    mouth_width := lerp current.mouth_width target.mouth_width t
    angry_brows := target.angry_brows
    look_side := target.look_side
    tilt_eyes := target.tilt_eyes
    sparkle := target.sparkle
    cat_face := target.cat_face }

/-- Parameter-interpolation section of `_update_animation`. -/
def interpStep (s : AnimState) : AnimState :=
  { s with current_params :=
      (lerpParams (emotionsGet s.current_emotion) (emotionsGet s.target_emotion)
        s.emotion_transition) }

/-- Gaze-smoothing section of `_update_animation`:
`gaze = lerp(gaze, target_gaze, dt * 10)` on each axis. -/
def gazeStep (s : AnimState) (dt : ℚ) : AnimState :=
  { s with gaze_x := lerp s.gaze_x s.target_gaze_x (dt * 10)
           gaze_y := lerp s.gaze_y s.target_gaze_y (dt * 10) }

/-- Face-offset (edge tracking) section of `_update_animation`. -/
def faceOffsetStep (s : AnimState) (dt : ℚ) : AnimState :=
  let edge_threshold : ℚ := 0.25
  let max_face_shift : ℚ := 25
  let target_offset_x : ℚ :=
    if s.gaze_x < edge_threshold then
      -max_face_shift * ((edge_threshold - s.gaze_x) / edge_threshold)
    else if s.gaze_x > 1 - edge_threshold then
      max_face_shift * ((s.gaze_x - (1 - edge_threshold)) / edge_threshold)
    else 0
  let target_offset_y : ℚ :=
    if s.gaze_y < edge_threshold then
      -max_face_shift * 0.6 * ((edge_threshold - s.gaze_y) / edge_threshold)
    else if s.gaze_y > 1 - edge_threshold then
      max_face_shift * 0.6 * ((s.gaze_y - (1 - edge_threshold)) / edge_threshold)
    else 0
  { s with face_offset_x := lerp s.face_offset_x target_offset_x (dt * 6)
           face_offset_y := lerp s.face_offset_y target_offset_y (dt * 6) }

/-- First `if` of the blink section of `_update_animation`: start a blink
when idle and the elapsed wall-clock time since the last blink exceeds the
interval; `now` is the `time.time()` read and `r` the `random.random()`
draw for the next interval. -/
def blinkTrigger (s : AnimState) (now r : ℚ) : AnimState :=
  if !s.is_blinking ∧ now - s.last_blink_time > s.blink_interval then
    { s with is_blinking := true
             blink_progress := 0
             blink_interval := 2 + r * 3
             last_blink_time := now }
  else s

/-- Second `if` of the blink section of `_update_animation`: advance blink
progress at `dt * 10` and end the blink once it reaches 1. -/
def blinkAdvance (s : AnimState) (dt : ℚ) : AnimState :=
  if s.is_blinking then
    let bp := s.blink_progress + dt * 10
    if bp ≥ 1 then
      { s with is_blinking := false, blink_progress := 0 }
    else
      { s with blink_progress := bp }
  else s

/-- Blink section of `_update_animation`: the two `if` statements in
source order. -/
def blinkStep (s : AnimState) (dt now r : ℚ) : AnimState :=
  blinkAdvance (blinkTrigger s now r) dt

/-- `_update_animation(delta_time)`, with the wall clock `now` and the
random draw `r` made explicit; sections run in source order. -/
def update_animation (s : AnimState) (dt now r : ℚ) : AnimState :=
  blinkStep (faceOffsetStep (gazeStep (interpStep (emotionStep s dt)) dt) dt) dt now r

/-- Fold `_update_animation` over a list of `(dt, now, r)` ticks. -/
def advanceAll (s : AnimState) (steps : List (ℚ × ℚ × ℚ)) : AnimState :=
  steps.foldl (fun s p => update_animation s p.1 p.2.1 p.2.2) s

/-- `_get_blink_factor`: 0 when idle; fast close (progress < 0.3), slower
open (progress ≥ 0.3). -/
def get_blink_factor (s : AnimState) : ℚ :=
  if !s.is_blinking then 0
  else if s.blink_progress < 0.3 then
    s.blink_progress / 0.3
  else
    1 - (s.blink_progress - 0.3) / 0.7

/-- The effective eye height computed in `_draw_robot_eye`: base height
times openness, squished by the blink factor, floored at 3. -/
def effectiveEyeHeight (s : AnimState) : ℚ :=
  max 3 (s.current_params.eye_height * s.current_params.eye_openness
    * (1 - get_blink_factor s * 0.95))

/-! ### Color parsing -/

/-- Value of one hexadecimal digit (`0-9a-fA-F`), `none` otherwise. -/
def hexDigitVal (c : Char) : Option ℕ :=
  if '0' ≤ c ∧ c ≤ '9' then some (c.toNat - '0'.toNat)
  else if 'a' ≤ c ∧ c ≤ 'f' then some (c.toNat - 'a'.toNat + 10)
  else if 'A' ≤ c ∧ c ≤ 'F' then some (c.toNat - 'A'.toNat + 10)
  else none

/-- Read a nonempty all-hex-digit string as a natural number. -/
def readHexNat (cs : List Char) : Option ℕ :=
  match cs with
  | [] => none
  | _ => cs.foldl (fun acc c => acc.bind fun a => (hexDigitVal c).map fun d => a * 16 + d)
      (some 0)

/-- Python's `int(s, 16)` on a (short) slice: strips surrounding spaces,
allows one leading sign, then requires a nonempty run of hex digits;
`none` models the `ValueError`. -/
def pyIntHex (cs : List Char) : Option ℤ :=
  let cs := ((cs.dropWhile (· = ' ')).reverse.dropWhile (· = ' ')).reverse
  match cs with
  | '+' :: rest => (readHexNat rest).map fun n => (n : ℤ)
  | '-' :: rest => (readHexNat rest).map fun n => -(n : ℤ)
  | rest => (readHexNat rest).map fun n => (n : ℤ)

/-- The parsing attempt shared by `_hex_to_rgb` and `set_pixel_art`'s
inline background parse: strip leading `#`s (`lstrip('#')`) and read the
three two-character slices at indices 0, 2, 4 with `int(·, 16)`;
`none` models the exception path. -/
def hexToRgbOpt (hex_color : String) : Option (ℤ × ℤ × ℤ) :=
  let s := hex_color.toList.dropWhile (· = '#')
  match pyIntHex (s.take 2), pyIntHex ((s.drop 2).take 2), pyIntHex ((s.drop 4).take 2) with
  | some r, some g, some b => some (r, g, b)
  | _, _, _ => none

/-- `_hex_to_rgb`: falls back to white `(255, 255, 255)` when parsing
raises. -/
def hex_to_rgb (hex_color : String) : ℤ × ℤ × ℤ :=
  (hexToRgbOpt hex_color).getD (255, 255, 255)

/-! ### Overlay state, setters and the render tick -/

/-- One entry of the `pixels` list: `{"x": int, "y": int, "color": str}`
(the renderer reads the keys with defaults via `dict.get`; entries in all
claims carry all three keys, modelled as total fields). -/
structure Pixel where
  x : ℤ
  y : ℤ
  color : String
deriving DecidableEq, Repr

/-- The overlay-related fields of `LunaFaceRenderer` together with the
animation state and the render loop's `last_time`. -/
structure RendererState where
  anim : AnimState
  last_time : ℚ
  text_mode : Bool
  text_content : Option String
  text_font_size : String
  text_color : ℤ × ℤ × ℤ
  text_bg_color : ℤ × ℤ × ℤ
  text_align : String
  text_valign : String
  drawing_mode : Bool
  pixel_art : Option (List Pixel)
  pixel_bg_color : ℤ × ℤ × ℤ
deriving DecidableEq, Repr

/-- Renderer state from `__init__` (face mode, no overlay); `t0` is the
construction-time clock read and `r` the blink-interval random draw. -/
def initRendererState (t0 r : ℚ) : RendererState :=
  { anim := initAnimState t0 r
    last_time := t0
    text_mode := false
    text_content := none
    text_font_size := "medium"
    text_color := (255, 255, 255)
    text_bg_color := (30, 30, 40)
    text_align := "center"
    text_valign := "center"
    drawing_mode := false
    pixel_art := none
    pixel_bg_color := (30, 30, 40) }

/-- `set_text`: enters text mode (clearing drawing mode — "Text takes
priority over pixel art"), validates the enumerated arguments against
their allowed sets, and parses both colors with `_hex_to_rgb`. -/
def set_text (s : RendererState) (text : String)
    (font_size color background align valign : String) : RendererState :=
  { s with text_mode := true
           drawing_mode := false
           text_content := some text
           text_font_size :=
             if ["small", "medium", "large", "xlarge"].contains font_size
             then font_size else "medium"
           text_color := hex_to_rgb color
           text_bg_color := hex_to_rgb background
           text_align :=
             if ["left", "center", "right"].contains align then align else "center"
           text_valign :=
             if ["top", "center", "bottom"].contains valign then valign else "center" }

/-- `clear_text`. -/
def clear_text (s : RendererState) : RendererState :=
  { s with text_mode := false, text_content := none }

/-- `set_pixel_art`: enters drawing mode, stores the pixels and parses
the background with fallback `(30, 30, 40)`. It does not touch
`text_mode`. -/
def set_pixel_art (s : RendererState) (pixels : List Pixel)
    (background : String) : RendererState :=
  { s with drawing_mode := true
           pixel_art := some pixels
           pixel_bg_color := (hexToRgbOpt background).getD (30, 30, 40) }

/-- `clear_pixel_art`. -/
def clear_pixel_art (s : RendererState) : RendererState :=
  { s with drawing_mode := false, pixel_art := none }

/-- Which renderer a tick uses, in the source's priority order: text
mode, then pixel art, then the face. -/
inductive RenderMode where
  | text
  | pixel
  | face
deriving DecidableEq, Repr

/-- Mode dispatch of `_render_loop`. -/
def renderMode (s : RendererState) : RenderMode :=
  if s.text_mode then .text else if s.drawing_mode then .pixel else .face

/-- One iteration of `_render_loop`: measure `delta_time` against
`last_time`, update `last_time`, and run `_update_animation` only when no
overlay is active. `now` is this tick's clock read and `r` the random
draw consumed if a blink triggers. -/
def render_tick (s : RendererState) (now r : ℚ) : RendererState :=
  let delta_time := now - s.last_time
  let s := { s with last_time := now }
  if !s.drawing_mode ∧ !s.text_mode then
    { s with anim := update_animation s.anim delta_time now r }
  else s

/-- Fold `render_tick` over a list of `(now, r)` ticks. -/
def tickAll (s : RendererState) (ticks : List (ℚ × ℚ)) : RendererState :=
  ticks.foldl (fun s p => render_tick s p.1 p.2) s

/-! ### Pixel-grid renderer

`_render_pixel_art` paints onto a 240×320 image whose cell `(x, y)` of
the 12×16 logical grid is the 20×20 screen rectangle
`[20x, 20x+19] × [20y, 20y+19]`; the rectangles tile the image
disjointly, so the frame is fully described by the per-grid-cell color
function modelled here. -/

/-- `self._grid_cols`. -/
def grid_cols : ℤ := 12

/-- `self._grid_rows`. -/
def grid_rows : ℤ := 16

/-- `min(p.get("x", 0) for p in pixels)` over the nonempty list `p :: rest`. -/
def pixelsMinX (p : Pixel) (rest : List Pixel) : ℤ :=
  rest.foldl (fun m q => min m q.x) p.x

/-- `max(p.get("x", 0) for p in pixels)`. -/
def pixelsMaxX (p : Pixel) (rest : List Pixel) : ℤ :=
  rest.foldl (fun m q => max m q.x) p.x

/-- `min(p.get("y", 0) for p in pixels)`. -/
def pixelsMinY (p : Pixel) (rest : List Pixel) : ℤ :=
  rest.foldl (fun m q => min m q.y) p.y

/-- `max(p.get("y", 0) for p in pixels)`. -/
def pixelsMaxY (p : Pixel) (rest : List Pixel) : ℤ :=
  rest.foldl (fun m q => max m q.y) p.y

/-- The centering offset of `_render_pixel_art`:
`(grid − artSize) // 2 − min` per axis (Python `//` is floor division,
`Int.fdiv`). -/
def pixelArtOffset (p : Pixel) (rest : List Pixel) : ℤ × ℤ :=
  let min_x := pixelsMinX p rest
  let max_x := pixelsMaxX p rest
  let min_y := pixelsMinY p rest
  let max_y := pixelsMaxY p rest
  let art_width := max_x - min_x + 1
  let art_height := max_y - min_y + 1
  (Int.fdiv (grid_cols - art_width) 2 - min_x,
   Int.fdiv (grid_rows - art_height) 2 - min_y)

/-- Draw one pixel of the loop body of `_render_pixel_art` onto the grid
color function: cells falling outside the 12×16 grid after centering are
skipped (`continue`). -/
def paintPixel (g : ℤ → ℤ → ℤ × ℤ × ℤ) (offset_x offset_y : ℤ) (p : Pixel) :
    ℤ → ℤ → ℤ × ℤ × ℤ :=
  let x := p.x + offset_x
  let y := p.y + offset_y
  if x < 0 ∨ x ≥ grid_cols ∨ y < 0 ∨ y ≥ grid_rows then g
  else fun a b => if a = x ∧ b = y then hex_to_rgb p.color else g a b

/-- `_render_pixel_art` at grid-cell granularity: the guard
`if not self._pixel_art` returns the plain background frame for both a
cleared (`None`) and an empty pixel list, before any bounding-box
computation; otherwise the bounding box and offset are computed from the
nonempty list and each pixel is painted in order. -/
def render_pixel_art (art : Option (List Pixel)) (bg : ℤ × ℤ × ℤ) :
    ℤ → ℤ → ℤ × ℤ × ℤ :=
  match art with
  | none => fun _ _ => bg
  | some [] => fun _ _ => bg
  | some (p :: rest) =>
    let off := pixelArtOffset p rest
    (p :: rest).foldl (fun g q => paintPixel g off.1 off.2 q) (fun _ _ => bg)

/-! ### Predicates and concrete scenario states used by the claims -/

/-- Invariant of the blink fields maintained by the renderer: progress is
nonnegative, and while a blink is in flight progress has not yet reached 1
(the update that reaches 1 ends the blink in the same call). -/
def blinkInv (s : AnimState) : Prop :=
  0 ≤ s.blink_progress ∧ (s.is_blinking = true → s.blink_progress < 1)

/-- Membership of `v` in the convex hull of the three profiles `p`, `q`,
`r` (componentwise on the six numeric fields). -/
def inHull3 (p q r v : EmotionParams) : Prop :=
  ∃ a b c : ℚ, 0 ≤ a ∧ 0 ≤ b ∧ 0 ≤ c ∧ a + b + c = 1 ∧
    v.eye_height = a * p.eye_height + b * q.eye_height + c * r.eye_height ∧
    v.eye_width = a * p.eye_width + b * q.eye_width + c * r.eye_width ∧
    v.eye_openness = a * p.eye_openness + b * q.eye_openness + c * r.eye_openness ∧
    v.mouth_curve = a * p.mouth_curve + b * q.mouth_curve + c * r.mouth_curve ∧
    v.mouth_open = a * p.mouth_open + b * q.mouth_open + c * r.mouth_open ∧
    v.mouth_width = a * p.mouth_width + b * q.mouth_width + c * r.mouth_width

/-- Invariant for the post-`setEmotion(e)` emotion fields after total
advanced time `acc`: target is `e`, transition equals `min 1 (4·acc)`, and
once `4·acc` reached 1 the current emotion and interpolated params have
arrived at `e`. -/
def transitionInv (e : String) (acc : ℚ) (s : AnimState) : Prop :=
  s.target_emotion = e ∧ s.emotion_transition = min 1 (4 * acc) ∧
  (1 ≤ 4 * acc → s.current_emotion = e ∧ s.current_params = emotionsGet e)

/-- Invariant for the interrupted-transition scenario of claim C2: target
is `"sad"`, current is still `"neutral"` (or already arrived at `"sad"`),
and the transition parameter is in `[0, 1]`. -/
def segInv (s : AnimState) : Prop :=
  s.target_emotion = "sad" ∧
  (s.current_emotion = "neutral" ∨ s.current_emotion = "sad") ∧
  0 ≤ s.emotion_transition ∧ s.emotion_transition ≤ 1

/-- Scenario of claims C2: `setEmotion("happy")` on a fresh renderer. -/
def c2Happy : AnimState := (set_emotion (initAnimState 0 0) "happy").1

/-- ... then advance 0.1 s (transition reaches 0.4, mid-flight blend). -/
def c2Mid : AnimState := update_animation c2Happy 0.1 0.1 0

/-- ... then `setEmotion("sad")` interrupts the transition. -/
def c2Sad : AnimState := (set_emotion c2Mid "sad").1

/-- The C7 input cells `{(0,0,"#FF0000"), (1,1,"#00FF00")}`. -/
def c7Pixels : List Pixel := [⟨0, 0, "#FF0000"⟩, ⟨1, 1, "#00FF00"⟩]

/-- Concrete gaze scenario for claim C4: fresh renderer with gaze target
set to the right edge. -/
def c4S : AnimState := set_gaze (initAnimState 0 0) 1 0.5

/-- ... advanced by a single 0.3 s delta. -/
def c4S' : AnimState := update_animation c4S 0.3 0.3 0

/-- Concrete overlay state for claims C1/C9: a Text overlay set on a
fresh renderer. -/
def c1Text : RendererState :=
  set_text (initRendererState 0 0) "hello" "medium" "#FFFFFF" "#1E1E28" "center" "center"

/-- ... then a PixelGrid overlay requested on top of it. -/
def c1Both : RendererState := set_pixel_art c1Text [⟨0, 0, "#FF0000"⟩] "#1E1E28"

/-! ### Step characterizations and frame lemmas -/

/-- `emotionStep` as a single record update. -/
lemma emotionStep_def (s : AnimState) (dt : ℚ) :
    emotionStep s dt =
      { s with
        emotion_transition :=
          if s.emotion_transition < 1 then min 1 (s.emotion_transition + dt * 4)
          else s.emotion_transition
        current_emotion :=
          if s.emotion_transition < 1 ∧ 1 ≤ min 1 (s.emotion_transition + dt * 4)
          then s.target_emotion else s.current_emotion } := by
  unfold emotionStep
  by_cases h1 : s.emotion_transition < 1
  · by_cases h2 : (1 : ℚ) ≤ min 1 (s.emotion_transition + dt * 4)
    · simp [h1, h2, ge_iff_le]
    · simp [h1, h2, ge_iff_le]
  · simp [h1]

@[simp] lemma emotionStep_target_emotion (s : AnimState) (dt : ℚ) :
    (emotionStep s dt).target_emotion = s.target_emotion := by
  rw [emotionStep_def]

@[simp] lemma emotionStep_gaze_x (s : AnimState) (dt : ℚ) :
    (emotionStep s dt).gaze_x = s.gaze_x := by
  rw [emotionStep_def]

@[simp] lemma emotionStep_gaze_y (s : AnimState) (dt : ℚ) :
    (emotionStep s dt).gaze_y = s.gaze_y := by
  rw [emotionStep_def]

@[simp] lemma emotionStep_target_gaze_x (s : AnimState) (dt : ℚ) :
    (emotionStep s dt).target_gaze_x = s.target_gaze_x := by
  rw [emotionStep_def]

@[simp] lemma emotionStep_target_gaze_y (s : AnimState) (dt : ℚ) :
    (emotionStep s dt).target_gaze_y = s.target_gaze_y := by
  rw [emotionStep_def]

@[simp] lemma emotionStep_face_offset_x (s : AnimState) (dt : ℚ) :
    (emotionStep s dt).face_offset_x = s.face_offset_x := by
  rw [emotionStep_def]

@[simp] lemma emotionStep_face_offset_y (s : AnimState) (dt : ℚ) :
    (emotionStep s dt).face_offset_y = s.face_offset_y := by
  rw [emotionStep_def]

@[simp] lemma emotionStep_is_blinking (s : AnimState) (dt : ℚ) :
    (emotionStep s dt).is_blinking = s.is_blinking := by
  rw [emotionStep_def]

@[simp] lemma emotionStep_blink_progress (s : AnimState) (dt : ℚ) :
    (emotionStep s dt).blink_progress = s.blink_progress := by
  rw [emotionStep_def]

@[simp] lemma emotionStep_last_blink_time (s : AnimState) (dt : ℚ) :
    (emotionStep s dt).last_blink_time = s.last_blink_time := by
  rw [emotionStep_def]

@[simp] lemma emotionStep_blink_interval (s : AnimState) (dt : ℚ) :
    (emotionStep s dt).blink_interval = s.blink_interval := by
  rw [emotionStep_def]

@[simp] lemma emotionStep_current_params (s : AnimState) (dt : ℚ) :
    (emotionStep s dt).current_params = s.current_params := by
  rw [emotionStep_def]

lemma emotionStep_emotion_transition (s : AnimState) (dt : ℚ) :
    (emotionStep s dt).emotion_transition =
      if s.emotion_transition < 1 then min 1 (s.emotion_transition + dt * 4)
      else s.emotion_transition := by
  rw [emotionStep_def]

lemma emotionStep_current_emotion (s : AnimState) (dt : ℚ) :
    (emotionStep s dt).current_emotion =
      if s.emotion_transition < 1 ∧ 1 ≤ min 1 (s.emotion_transition + dt * 4)
      then s.target_emotion else s.current_emotion := by
  rw [emotionStep_def]

@[simp] lemma interpStep_current_params (s : AnimState) :
    (interpStep s).current_params =
      lerpParams (emotionsGet s.current_emotion) (emotionsGet s.target_emotion)
        s.emotion_transition := rfl

@[simp] lemma interpStep_current_emotion (s : AnimState) :
    (interpStep s).current_emotion = s.current_emotion := rfl

@[simp] lemma interpStep_target_emotion (s : AnimState) :
    (interpStep s).target_emotion = s.target_emotion := rfl

@[simp] lemma interpStep_emotion_transition (s : AnimState) :
    (interpStep s).emotion_transition = s.emotion_transition := rfl

@[simp] lemma interpStep_gaze_x (s : AnimState) : (interpStep s).gaze_x = s.gaze_x := rfl

@[simp] lemma interpStep_gaze_y (s : AnimState) : (interpStep s).gaze_y = s.gaze_y := rfl

@[simp] lemma interpStep_target_gaze_x (s : AnimState) :
    (interpStep s).target_gaze_x = s.target_gaze_x := rfl

@[simp] lemma interpStep_target_gaze_y (s : AnimState) :
    (interpStep s).target_gaze_y = s.target_gaze_y := rfl

@[simp] lemma interpStep_is_blinking (s : AnimState) :
    (interpStep s).is_blinking = s.is_blinking := rfl

@[simp] lemma interpStep_blink_progress (s : AnimState) :
    (interpStep s).blink_progress = s.blink_progress := rfl

@[simp] lemma interpStep_last_blink_time (s : AnimState) :
    (interpStep s).last_blink_time = s.last_blink_time := rfl

@[simp] lemma interpStep_blink_interval (s : AnimState) :
    (interpStep s).blink_interval = s.blink_interval := rfl

@[simp] lemma gazeStep_gaze_x (s : AnimState) (dt : ℚ) :
    (gazeStep s dt).gaze_x = lerp s.gaze_x s.target_gaze_x (dt * 10) := rfl

@[simp] lemma gazeStep_gaze_y (s : AnimState) (dt : ℚ) :
    (gazeStep s dt).gaze_y = lerp s.gaze_y s.target_gaze_y (dt * 10) := rfl

@[simp] lemma gazeStep_current_emotion (s : AnimState) (dt : ℚ) :
    (gazeStep s dt).current_emotion = s.current_emotion := rfl

@[simp] lemma gazeStep_target_emotion (s : AnimState) (dt : ℚ) :
    (gazeStep s dt).target_emotion = s.target_emotion := rfl

@[simp] lemma gazeStep_emotion_transition (s : AnimState) (dt : ℚ) :
    (gazeStep s dt).emotion_transition = s.emotion_transition := rfl

@[simp] lemma gazeStep_current_params (s : AnimState) (dt : ℚ) :
    (gazeStep s dt).current_params = s.current_params := rfl

@[simp] lemma gazeStep_target_gaze_x (s : AnimState) (dt : ℚ) :
    (gazeStep s dt).target_gaze_x = s.target_gaze_x := rfl

@[simp] lemma gazeStep_target_gaze_y (s : AnimState) (dt : ℚ) :
    (gazeStep s dt).target_gaze_y = s.target_gaze_y := rfl

@[simp] lemma gazeStep_is_blinking (s : AnimState) (dt : ℚ) :
    (gazeStep s dt).is_blinking = s.is_blinking := rfl

@[simp] lemma gazeStep_blink_progress (s : AnimState) (dt : ℚ) :
    (gazeStep s dt).blink_progress = s.blink_progress := rfl

@[simp] lemma gazeStep_last_blink_time (s : AnimState) (dt : ℚ) :
    (gazeStep s dt).last_blink_time = s.last_blink_time := rfl

@[simp] lemma gazeStep_blink_interval (s : AnimState) (dt : ℚ) :
    (gazeStep s dt).blink_interval = s.blink_interval := rfl

@[simp] lemma faceOffsetStep_gaze_x (s : AnimState) (dt : ℚ) :
    (faceOffsetStep s dt).gaze_x = s.gaze_x := rfl

@[simp] lemma faceOffsetStep_gaze_y (s : AnimState) (dt : ℚ) :
    (faceOffsetStep s dt).gaze_y = s.gaze_y := rfl

@[simp] lemma faceOffsetStep_current_emotion (s : AnimState) (dt : ℚ) :
    (faceOffsetStep s dt).current_emotion = s.current_emotion := rfl

@[simp] lemma faceOffsetStep_target_emotion (s : AnimState) (dt : ℚ) :
    (faceOffsetStep s dt).target_emotion = s.target_emotion := rfl

@[simp] lemma faceOffsetStep_emotion_transition (s : AnimState) (dt : ℚ) :
    (faceOffsetStep s dt).emotion_transition = s.emotion_transition := rfl

@[simp] lemma faceOffsetStep_current_params (s : AnimState) (dt : ℚ) :
    (faceOffsetStep s dt).current_params = s.current_params := rfl

@[simp] lemma faceOffsetStep_target_gaze_x (s : AnimState) (dt : ℚ) :
    (faceOffsetStep s dt).target_gaze_x = s.target_gaze_x := rfl

@[simp] lemma faceOffsetStep_target_gaze_y (s : AnimState) (dt : ℚ) :
    (faceOffsetStep s dt).target_gaze_y = s.target_gaze_y := rfl

@[simp] lemma faceOffsetStep_is_blinking (s : AnimState) (dt : ℚ) :
    (faceOffsetStep s dt).is_blinking = s.is_blinking := rfl

@[simp] lemma faceOffsetStep_blink_progress (s : AnimState) (dt : ℚ) :
    (faceOffsetStep s dt).blink_progress = s.blink_progress := rfl

@[simp] lemma faceOffsetStep_last_blink_time (s : AnimState) (dt : ℚ) :
    (faceOffsetStep s dt).last_blink_time = s.last_blink_time := rfl

@[simp] lemma faceOffsetStep_blink_interval (s : AnimState) (dt : ℚ) :
    (faceOffsetStep s dt).blink_interval = s.blink_interval := rfl

@[simp] lemma blinkTrigger_current_emotion (s : AnimState) (now r : ℚ) :
    (blinkTrigger s now r).current_emotion = s.current_emotion := by
  unfold blinkTrigger
  split_ifs <;> rfl

@[simp] lemma blinkTrigger_target_emotion (s : AnimState) (now r : ℚ) :
    (blinkTrigger s now r).target_emotion = s.target_emotion := by
  unfold blinkTrigger
  split_ifs <;> rfl

@[simp] lemma blinkTrigger_emotion_transition (s : AnimState) (now r : ℚ) :
    (blinkTrigger s now r).emotion_transition = s.emotion_transition := by
  unfold blinkTrigger
  split_ifs <;> rfl

@[simp] lemma blinkTrigger_current_params (s : AnimState) (now r : ℚ) :
    (blinkTrigger s now r).current_params = s.current_params := by
  unfold blinkTrigger
  split_ifs <;> rfl

@[simp] lemma blinkTrigger_gaze_x (s : AnimState) (now r : ℚ) :
    (blinkTrigger s now r).gaze_x = s.gaze_x := by
  unfold blinkTrigger
  split_ifs <;> rfl

@[simp] lemma blinkTrigger_gaze_y (s : AnimState) (now r : ℚ) :
    (blinkTrigger s now r).gaze_y = s.gaze_y := by
  unfold blinkTrigger
  split_ifs <;> rfl

@[simp] lemma blinkTrigger_target_gaze_x (s : AnimState) (now r : ℚ) :
    (blinkTrigger s now r).target_gaze_x = s.target_gaze_x := by
  unfold blinkTrigger
  split_ifs <;> rfl

@[simp] lemma blinkTrigger_target_gaze_y (s : AnimState) (now r : ℚ) :
    (blinkTrigger s now r).target_gaze_y = s.target_gaze_y := by
  unfold blinkTrigger
  split_ifs <;> rfl

@[simp] lemma blinkTrigger_face_offset_x (s : AnimState) (now r : ℚ) :
    (blinkTrigger s now r).face_offset_x = s.face_offset_x := by
  unfold blinkTrigger
  split_ifs <;> rfl

@[simp] lemma blinkTrigger_face_offset_y (s : AnimState) (now r : ℚ) :
    (blinkTrigger s now r).face_offset_y = s.face_offset_y := by
  unfold blinkTrigger
  split_ifs <;> rfl

@[simp] lemma blinkAdvance_current_emotion (s : AnimState) (dt : ℚ) :
    (blinkAdvance s dt).current_emotion = s.current_emotion := by
  unfold blinkAdvance
  split
  · dsimp only
    split <;> rfl
  · rfl

@[simp] lemma blinkAdvance_target_emotion (s : AnimState) (dt : ℚ) :
    (blinkAdvance s dt).target_emotion = s.target_emotion := by
  unfold blinkAdvance
  split
  · dsimp only
    split <;> rfl
  · rfl

@[simp] lemma blinkAdvance_emotion_transition (s : AnimState) (dt : ℚ) :
    (blinkAdvance s dt).emotion_transition = s.emotion_transition := by
  unfold blinkAdvance
  split
  · dsimp only
    split <;> rfl
  · rfl

@[simp] lemma blinkAdvance_current_params (s : AnimState) (dt : ℚ) :
    (blinkAdvance s dt).current_params = s.current_params := by
  unfold blinkAdvance
  split
  · dsimp only
    split <;> rfl
  · rfl

@[simp] lemma blinkAdvance_gaze_x (s : AnimState) (dt : ℚ) :
    (blinkAdvance s dt).gaze_x = s.gaze_x := by
  unfold blinkAdvance
  split
  · dsimp only
    split <;> rfl
  · rfl

@[simp] lemma blinkAdvance_gaze_y (s : AnimState) (dt : ℚ) :
    (blinkAdvance s dt).gaze_y = s.gaze_y := by
  unfold blinkAdvance
  split
  · dsimp only
    split <;> rfl
  · rfl

@[simp] lemma blinkAdvance_target_gaze_x (s : AnimState) (dt : ℚ) :
    (blinkAdvance s dt).target_gaze_x = s.target_gaze_x := by
  unfold blinkAdvance
  split
  · dsimp only
    split <;> rfl
  · rfl

@[simp] lemma blinkAdvance_target_gaze_y (s : AnimState) (dt : ℚ) :
    (blinkAdvance s dt).target_gaze_y = s.target_gaze_y := by
  unfold blinkAdvance
  split
  · dsimp only
    split <;> rfl
  · rfl

@[simp] lemma blinkAdvance_face_offset_x (s : AnimState) (dt : ℚ) :
    (blinkAdvance s dt).face_offset_x = s.face_offset_x := by
  unfold blinkAdvance
  split
  · dsimp only
    split <;> rfl
  · rfl

@[simp] lemma blinkAdvance_face_offset_y (s : AnimState) (dt : ℚ) :
    (blinkAdvance s dt).face_offset_y = s.face_offset_y := by
  unfold blinkAdvance
  split
  · dsimp only
    split <;> rfl
  · rfl

@[simp] lemma blinkStep_current_emotion (s : AnimState) (dt now r : ℚ) :
    (blinkStep s dt now r).current_emotion = s.current_emotion := by
  simp [blinkStep]

@[simp] lemma blinkStep_target_emotion (s : AnimState) (dt now r : ℚ) :
    (blinkStep s dt now r).target_emotion = s.target_emotion := by
  simp [blinkStep]

@[simp] lemma blinkStep_emotion_transition (s : AnimState) (dt now r : ℚ) :
    (blinkStep s dt now r).emotion_transition = s.emotion_transition := by
  simp [blinkStep]

@[simp] lemma blinkStep_current_params (s : AnimState) (dt now r : ℚ) :
    (blinkStep s dt now r).current_params = s.current_params := by
  simp [blinkStep]

@[simp] lemma blinkStep_gaze_x (s : AnimState) (dt now r : ℚ) :
    (blinkStep s dt now r).gaze_x = s.gaze_x := by
  simp [blinkStep]

@[simp] lemma blinkStep_gaze_y (s : AnimState) (dt now r : ℚ) :
    (blinkStep s dt now r).gaze_y = s.gaze_y := by
  simp [blinkStep]

@[simp] lemma blinkStep_target_gaze_x (s : AnimState) (dt now r : ℚ) :
    (blinkStep s dt now r).target_gaze_x = s.target_gaze_x := by
  simp [blinkStep]

@[simp] lemma blinkStep_target_gaze_y (s : AnimState) (dt now r : ℚ) :
    (blinkStep s dt now r).target_gaze_y = s.target_gaze_y := by
  simp [blinkStep]

@[simp] lemma blinkStep_face_offset_x (s : AnimState) (dt now r : ℚ) :
    (blinkStep s dt now r).face_offset_x = s.face_offset_x := by
  simp [blinkStep]

@[simp] lemma blinkStep_face_offset_y (s : AnimState) (dt now r : ℚ) :
    (blinkStep s dt now r).face_offset_y = s.face_offset_y := by
  simp [blinkStep]

/-- Projections of one full `_update_animation` call used by the claims:
target emotion is untouched, gaze moves by the lerp, transition and
current emotion follow the clamped step. -/
@[simp] lemma update_target_emotion (s : AnimState) (dt now r : ℚ) :
    (update_animation s dt now r).target_emotion = s.target_emotion := by
  simp [update_animation]

@[simp] lemma update_target_gaze_x (s : AnimState) (dt now r : ℚ) :
    (update_animation s dt now r).target_gaze_x = s.target_gaze_x := by
  simp [update_animation]

@[simp] lemma update_target_gaze_y (s : AnimState) (dt now r : ℚ) :
    (update_animation s dt now r).target_gaze_y = s.target_gaze_y := by
  simp [update_animation]

@[simp] lemma update_gaze_x (s : AnimState) (dt now r : ℚ) :
    (update_animation s dt now r).gaze_x = lerp s.gaze_x s.target_gaze_x (dt * 10) := by
  simp [update_animation]

@[simp] lemma update_gaze_y (s : AnimState) (dt now r : ℚ) :
    (update_animation s dt now r).gaze_y = lerp s.gaze_y s.target_gaze_y (dt * 10) := by
  simp [update_animation]

lemma update_emotion_transition (s : AnimState) (dt now r : ℚ) :
    (update_animation s dt now r).emotion_transition =
      if s.emotion_transition < 1 then min 1 (s.emotion_transition + dt * 4)
      else s.emotion_transition := by
  simp [update_animation, emotionStep_emotion_transition]

lemma update_current_emotion (s : AnimState) (dt now r : ℚ) :
    (update_animation s dt now r).current_emotion =
      if s.emotion_transition < 1 ∧ 1 ≤ min 1 (s.emotion_transition + dt * 4)
      then s.target_emotion else s.current_emotion := by
  simp [update_animation, emotionStep_current_emotion]

lemma update_current_params (s : AnimState) (dt now r : ℚ) :
    (update_animation s dt now r).current_params =
      lerpParams (emotionsGet ((emotionStep s dt).current_emotion))
        (emotionsGet s.target_emotion) ((emotionStep s dt).emotion_transition) := by
  simp [update_animation]

@[simp] lemma lerpParams_self (p : EmotionParams) (t : ℚ) : lerpParams p p t = p := by
  cases p
  simp [lerpParams, lerp]

@[simp] lemma lerpParams_one (p q : EmotionParams) : lerpParams p q 1 = q := by
  cases q
  simp [lerpParams, lerp]

@[simp] lemma advanceAll_nil (s : AnimState) : advanceAll s [] = s := rfl

lemma advanceAll_cons (s : AnimState) (p : ℚ × ℚ × ℚ) (ps : List (ℚ × ℚ × ℚ)) :
    advanceAll s (p :: ps) = advanceAll (update_animation s p.1 p.2.1 p.2.2) ps := rfl

/-- The lerp stays within the interval spanned by its endpoints when
`0 ≤ u ≤ 1`. -/
lemma lerp_between (g t u : ℚ) (h0 : 0 ≤ u) (h1 : u ≤ 1) :
    min g t ≤ lerp g t u ∧ lerp g t u ≤ max g t := by
  unfold lerp
  rcases le_total g t with h | h
  · rw [min_eq_left h, max_eq_right h]
    constructor <;> nlinarith [mul_nonneg (sub_nonneg.2 h) h0,
      mul_nonneg (sub_nonneg.2 h) (sub_nonneg.2 h1)]
  · rw [min_eq_right h, max_eq_left h]
    constructor <;> nlinarith [mul_nonneg (sub_nonneg.2 h) h0,
      mul_nonneg (sub_nonneg.2 h) (sub_nonneg.2 h1)]

/-- The distance of the lerp to its target is the old distance scaled by
`1 − u`. -/
lemma lerp_abs_sub (g t u : ℚ) (h1 : u ≤ 1) :
    |lerp g t u - t| = (1 - u) * |g - t| := by
  have h : lerp g t u - t = (1 - u) * (g - t) := by unfold lerp; ring
  rw [h, abs_mul, abs_of_nonneg (by linarith : (0 : ℚ) ≤ 1 - u)]

/-- `blinkAdvance` establishes the blink invariant whenever progress was
nonnegative and the delta is nonnegative. -/
lemma blinkAdvance_inv (s : AnimState) (dt : ℚ) (hp : 0 ≤ s.blink_progress)
    (hdt : 0 ≤ dt) : blinkInv (blinkAdvance s dt) := by
  unfold blinkAdvance blinkInv
  split
  next h1 =>
    dsimp only
    split_ifs with h2
    · exact ⟨by norm_num, by simp⟩
    · refine ⟨?_, fun _ => ?_⟩
      · show 0 ≤ s.blink_progress + dt * 10
        nlinarith
      · show s.blink_progress + dt * 10 < 1
        exact not_le.1 h2
  next h1 => exact ⟨hp, fun hb => absurd hb h1⟩

/-- `blinkTrigger` keeps blink progress nonnegative (a freshly triggered
blink restarts it at 0). -/
lemma blinkTrigger_progress_nonneg (s : AnimState) (now r : ℚ)
    (hp : 0 ≤ s.blink_progress) : 0 ≤ (blinkTrigger s now r).blink_progress := by
  unfold blinkTrigger
  split_ifs
  · norm_num
  · exact hp

/-- One full `_update_animation` call re-establishes the blink invariant
from nonnegative progress and a nonnegative delta. -/
lemma update_blinkInv (s : AnimState) (dt now r : ℚ) (hp : 0 ≤ s.blink_progress)
    (hdt : 0 ≤ dt) : blinkInv (update_animation s dt now r) := by
  unfold update_animation blinkStep
  apply blinkAdvance_inv _ _ _ hdt
  apply blinkTrigger_progress_nonneg
  simpa using hp

/-- The blink factor is in `[0, 1]` on every state satisfying the blink
invariant. -/
lemma get_blink_factor_mem (s : AnimState) (h : blinkInv s) :
    0 ≤ get_blink_factor s ∧ get_blink_factor s ≤ 1 := by
  obtain ⟨hp, hb⟩ := h
  unfold get_blink_factor
  split_ifs with h1 h2
  · norm_num
  · constructor
    · exact div_nonneg hp (by norm_num)
    · rw [div_le_one (by norm_num)]
      linarith
  · have hbl : s.is_blinking = true := by simpa using h1
    have hlt : s.blink_progress < 1 := hb hbl
    have hge : (0.3 : ℚ) ≤ s.blink_progress := not_lt.1 h2
    constructor
    · have : (s.blink_progress - 0.3) / 0.7 ≤ 1 := by
        rw [div_le_one (by norm_num)]
        linarith
      linarith
    · have : 0 ≤ (s.blink_progress - 0.3) / 0.7 :=
        div_nonneg (by linarith) (by norm_num)
      linarith

/-- One `_update_animation` call preserves the transition invariant,
moving the accumulated time from `acc` to `acc + dt`. -/
lemma transitionInv_step (e : String) (acc : ℚ) (s : AnimState) (dt now r : ℚ)
    (hinv : transitionInv e acc s) (hdt : 0 ≤ dt) :
    transitionInv e (acc + dt) (update_animation s dt now r) := by
  obtain ⟨hT, htr, hcur⟩ := hinv
  by_cases hc : 1 ≤ 4 * acc
  · have ht1 : s.emotion_transition = 1 := by rw [htr, min_eq_left hc]
    obtain ⟨hce, hcp⟩ := hcur hc
    have hnlt : ¬s.emotion_transition < 1 := by rw [ht1]; exact lt_irrefl 1
    refine ⟨by simp [hT], ?_, fun _ => ?_⟩
    · rw [update_emotion_transition, if_neg hnlt, ht1,
        min_eq_left (by linarith : (1 : ℚ) ≤ 4 * (acc + dt))]
    · have hes : emotionStep s dt = s := by
        rw [emotionStep_def, if_neg hnlt]
        simp [hnlt]
      constructor
      · rw [update_current_emotion, if_neg (fun hand => hnlt hand.1)]
        exact hce
      · rw [update_current_params, hes, hce, hT, lerpParams_self]
  · push_neg at hc
    have ht : s.emotion_transition = 4 * acc := by rw [htr, min_eq_right (le_of_lt hc)]
    have hlt : s.emotion_transition < 1 := by rw [ht]; exact hc
    refine ⟨by simp [hT], ?_, fun h1 => ?_⟩
    · rw [update_emotion_transition, if_pos hlt, ht]
      congr 1
      ring
    · have hge : 1 ≤ s.emotion_transition + dt * 4 := by rw [ht]; linarith
      have hcond : s.emotion_transition < 1 ∧ 1 ≤ min 1 (s.emotion_transition + dt * 4) :=
        ⟨hlt, le_min le_rfl hge⟩
      constructor
      · rw [update_current_emotion, if_pos hcond]
        exact hT
      · have hcur' : (emotionStep s dt).current_emotion = e := by
          rw [emotionStep_current_emotion, if_pos hcond, hT]
        have htr' : (emotionStep s dt).emotion_transition = 1 := by
          rw [emotionStep_emotion_transition, if_pos hlt, min_eq_left hge]
        rw [update_current_params, hcur', htr', hT, lerpParams_one]

/-- Folding `_update_animation` over nonnegative deltas preserves the
transition invariant, accumulating the total advanced time. -/
lemma transitionInv_advanceAll (e : String) (acc : ℚ) (s : AnimState)
    (steps : List (ℚ × ℚ × ℚ)) (hinv : transitionInv e acc s)
    (hsteps : ∀ p ∈ steps, 0 ≤ p.1) :
    transitionInv e (acc + (steps.map fun p => p.1).sum) (advanceAll s steps) := by
  induction steps generalizing s acc with
  | nil => simpa using hinv
  | cons p ps ih =>
    have h0 : 0 ≤ p.1 := hsteps p (by simp)
    have h := ih (acc + p.1) (update_animation s p.1 p.2.1 p.2.2)
      (transitionInv_step e acc s p.1 p.2.1 p.2.2 hinv h0)
      (fun q hq => hsteps q (by simp [hq]))
    rw [advanceAll_cons]
    simpa [add_assoc] using h

/-- One `_update_animation` call preserves the interrupted-transition
invariant of C2 and lands the interpolated params on the segment from the
raw neutral profile to the sad profile. -/
lemma segInv_step (s : AnimState) (dt now r : ℚ) (h : segInv s) (hdt : 0 ≤ dt) :
    segInv (update_animation s dt now r) ∧
    ∃ t : ℚ, 0 ≤ t ∧ t ≤ 1 ∧
      (update_animation s dt now r).current_params = lerpParams neutralParams sadParams t := by
  obtain ⟨hT, hC, h0, h1⟩ := h
  have htr' := update_emotion_transition s dt now r
  have ht'0 : 0 ≤ (update_animation s dt now r).emotion_transition := by
    rw [htr']
    split_ifs
    · exact le_min (by norm_num) (by nlinarith)
    · exact h0
  have ht'1 : (update_animation s dt now r).emotion_transition ≤ 1 := by
    rw [htr']
    split_ifs
    · exact min_le_left _ _
    · exact h1
  have hupdtr : (update_animation s dt now r).emotion_transition
      = (emotionStep s dt).emotion_transition := by
    rw [update_emotion_transition, emotionStep_emotion_transition]
  constructor
  · refine ⟨by simp [hT], ?_, ht'0, ht'1⟩
    rw [update_current_emotion]
    split_ifs
    · exact Or.inr hT
    · exact hC
  · rcases hC with hcn | hcs
    · by_cases hcross : s.emotion_transition < 1 ∧ 1 ≤ min 1 (s.emotion_transition + dt * 4)
      · refine ⟨1, by norm_num, by norm_num, ?_⟩
        have hcur' : (emotionStep s dt).current_emotion = "sad" := by
          rw [emotionStep_current_emotion, if_pos hcross, hT]
        have htr'' : (emotionStep s dt).emotion_transition = 1 := by
          rw [emotionStep_emotion_transition, if_pos hcross.1]
          exact le_antisymm (min_le_left _ _) hcross.2
        rw [update_current_params, hcur', htr'', hT]
        rw [show emotionsGet "sad" = sadParams from rfl, lerpParams_self, lerpParams_one]
      · refine ⟨(update_animation s dt now r).emotion_transition, ht'0, ht'1, ?_⟩
        have hcur' : (emotionStep s dt).current_emotion = s.current_emotion := by
          rw [emotionStep_current_emotion, if_neg hcross]
        rw [update_current_params, hcur', hcn, hT, hupdtr]
        rw [show emotionsGet "neutral" = neutralParams from rfl,
          show emotionsGet "sad" = sadParams from rfl]
    · refine ⟨1, by norm_num, by norm_num, ?_⟩
      have hcur' : (emotionStep s dt).current_emotion = "sad" := by
        rw [emotionStep_current_emotion]
        split_ifs
        · exact hT
        · exact hcs
      rw [update_current_params, hcur', hT]
      rw [show emotionsGet "sad" = sadParams from rfl, lerpParams_self, lerpParams_one]

/-- Folding `_update_animation` over nonnegative deltas preserves the C2
invariant; unless no step ran, the resulting params lie on the
neutral-to-sad segment. -/
lemma segInv_advance (s : AnimState) (steps : List (ℚ × ℚ × ℚ)) (h : segInv s)
    (hsteps : ∀ p ∈ steps, 0 ≤ p.1) :
    segInv (advanceAll s steps) ∧
    (advanceAll s steps = s ∨ ∃ t : ℚ, 0 ≤ t ∧ t ≤ 1 ∧
      (advanceAll s steps).current_params = lerpParams neutralParams sadParams t) := by
  induction steps generalizing s with
  | nil => exact ⟨h, Or.inl rfl⟩
  | cons p ps ih =>
    have h0 : 0 ≤ p.1 := hsteps p (by simp)
    obtain ⟨hinv', hex⟩ := segInv_step s p.1 p.2.1 p.2.2 h h0
    obtain ⟨hinv'', hor⟩ := ih (update_animation s p.1 p.2.1 p.2.2) hinv'
      (fun q hq => hsteps q (by simp [hq]))
    rw [advanceAll_cons]
    refine ⟨hinv'', Or.inr ?_⟩
    rcases hor with heq | ⟨t, ht0, ht1, hp⟩
    · obtain ⟨t, ht0, ht1, hp⟩ := hex
      exact ⟨t, ht0, ht1, by rw [heq]; exact hp⟩
    · exact ⟨t, ht0, ht1, hp⟩

/-! ### Claims -/

/-- C1 (counterexample): setting a Text overlay and then a PixelGrid
overlay does NOT leave exactly the PixelGrid overlay active —
`set_pixel_art` never clears `text_mode`, so the Text overlay stays set,
keeps render priority, and `clear_pixel_art()` afterward leaves the
renderer in text mode, not face mode. -/
theorem C1_counterexample :
    c1Both.text_mode = true ∧ c1Both.drawing_mode = true ∧
    renderMode c1Both = RenderMode.text ∧
    (clear_pixel_art c1Both).text_mode = true ∧
    renderMode (clear_pixel_art c1Both) = RenderMode.text :=
  ⟨rfl, rfl, rfl, rfl, rfl⟩

/-- C1 (amended): after `set_text` then `set_pixel_art` BOTH overlay
flags are set and the Text overlay keeps priority; `clear_pixel_art`
leaves the Text overlay active.  Mutual exclusivity holds only in the
other order: `set_pixel_art` then `set_text` leaves exactly the Text
overlay active (text clears drawing mode), and `clear_text` afterward
returns to face mode. -/
theorem C1_amended (s : RendererState)
    (text font_size color background align valign : String)
    (pixels : List Pixel) (bg : String) :
    (set_pixel_art (set_text s text font_size color background align valign)
        pixels bg).text_mode = true ∧
    (set_pixel_art (set_text s text font_size color background align valign)
        pixels bg).drawing_mode = true ∧
    renderMode (set_pixel_art (set_text s text font_size color background align valign)
        pixels bg) = RenderMode.text ∧
    (clear_pixel_art (set_pixel_art
        (set_text s text font_size color background align valign) pixels bg)).text_mode
      = true ∧
    renderMode (clear_pixel_art (set_pixel_art
        (set_text s text font_size color background align valign) pixels bg))
      = RenderMode.text ∧
    (set_text (set_pixel_art s pixels bg) text font_size color background align
        valign).text_mode = true ∧
    (set_text (set_pixel_art s pixels bg) text font_size color background align
        valign).drawing_mode = false ∧
    renderMode (set_text (set_pixel_art s pixels bg) text font_size color background
        align valign) = RenderMode.text ∧
    (clear_text (set_text (set_pixel_art s pixels bg) text font_size color background
        align valign)).text_mode = false ∧
    (clear_text (set_text (set_pixel_art s pixels bg) text font_size color background
        align valign)).drawing_mode = false ∧
    renderMode (clear_text (set_text (set_pixel_art s pixels bg) text font_size color
        background align valign)) = RenderMode.face :=
  ⟨rfl, rfl, rfl, rfl, rfl, rfl, rfl, rfl, rfl, rfl, rfl⟩

/-- C3 (counterexample): a malformed background color passed to
`set_text` falls back to WHITE (`_hex_to_rgb`'s only fallback), not to
the engine's dark default `(30, 30, 40)`; moreover a string that is not
a well-formed `#RRGGBB` value (here 8 hex digits) does not fall back at
all — its first six digits are parsed. -/
theorem C3_counterexample :
    (set_text (initRendererState 0 0) "hi" "medium" "#FFFFFF" "zzz" "center"
        "center").text_mode = true ∧
    (set_text (initRendererState 0 0) "hi" "medium" "#FFFFFF" "zzz" "center"
        "center").text_bg_color = (255, 255, 255) ∧
    ((255, 255, 255) : ℤ × ℤ × ℤ) ≠ (30, 30, 40) ∧
    hex_to_rgb "#00112233" = (0, 17, 34) ∧
    ((0, 17, 34) : ℤ × ℤ × ℤ) ≠ (255, 255, 255) := by
  refine ⟨rfl, by decide, by decide, by decide, by decide⟩

/-- C3 (amended): for every color string whose hex parse fails, the set
request still takes effect and the color falls back to a default — white
for the text foreground AND the text background (both go through
`_hex_to_rgb`), and the dark default `(30, 30, 40)` only for the
pixel-art background (`set_pixel_art`'s inline parse). -/
theorem C3_amended (s : RendererState) (text fsz fg bg align valign : String)
    (pixels : List Pixel) :
    (set_text s text fsz fg bg align valign).text_mode = true ∧
    (hexToRgbOpt fg = none →
      (set_text s text fsz fg bg align valign).text_color = (255, 255, 255)) ∧
    (hexToRgbOpt bg = none →
      (set_text s text fsz fg bg align valign).text_bg_color = (255, 255, 255)) ∧
    (set_pixel_art s pixels bg).drawing_mode = true ∧
    (set_pixel_art s pixels bg).pixel_art = some pixels ∧
    (hexToRgbOpt bg = none →
      (set_pixel_art s pixels bg).pixel_bg_color = (30, 30, 40)) := by
  refine ⟨rfl, fun h => ?_, fun h => ?_, rfl, rfl, fun h => ?_⟩
  · simp [set_text, hex_to_rgb, h]
  · simp [set_text, hex_to_rgb, h]
  · simp [set_pixel_art, h]

/-- Witness for C3 (amended) at the malformed color string `"zzz"`. -/
theorem C3_amended_witness :
    (set_text (initRendererState 0 0) "hi" "medium" "zzz" "zzz" "center"
        "center").text_color = (255, 255, 255) ∧
    (set_text (initRendererState 0 0) "hi" "medium" "zzz" "zzz" "center"
        "center").text_bg_color = (255, 255, 255) ∧
    (set_pixel_art (initRendererState 0 0) [] "zzz").pixel_bg_color = (30, 30, 40) :=
  ⟨(C3_amended (initRendererState 0 0) "hi" "medium" "zzz" "zzz" "center" "center"
      []).2.1 (by decide),
   (C3_amended (initRendererState 0 0) "hi" "medium" "zzz" "zzz" "center" "center"
      []).2.2.1 (by decide),
   (C3_amended (initRendererState 0 0) "hi" "medium" "zzz" "zzz" "center" "center"
      []).2.2.2.2.2 (by decide)⟩

/-- C6: for every string that is not a known emotion name, `set_emotion`
is a no-op on the animation state (target, current and transition are all
unchanged), the rejection is reported to the caller (the `false` result
models the logged warning), and the name is never mapped to a default
emotion. -/
theorem C6_invalid_emotion_noop (s : AnimState) (name : String)
    (h : EMOTIONS name = none) : set_emotion s name = (s, false) := by
  simp [set_emotion, h]

/-- Witness for C6 at the unknown emotion name `"joyful"`. -/
theorem C6_invalid_emotion_noop_witness :
    set_emotion (initAnimState 0 0) "joyful" = (initAnimState 0 0, false) :=
  C6_invalid_emotion_noop (initAnimState 0 0) "joyful" rfl

/-- C7: the pixel-grid renderer centers the bounding box of the supplied
cells on the 12×16 grid by an integer offset — for the C7 input the
offset is `(5, 7)`, the red cell renders at grid cell `(5, 7)`, the green
cell at `(6, 8)`, and every other grid cell shows the background — and
any cell falling outside grid bounds after centering is silently
dropped. -/
theorem C7_pixel_grid_centering :
    (pixelArtOffset ⟨0, 0, "#FF0000"⟩ [⟨1, 1, "#00FF00"⟩] = (5, 7)) ∧
    (∀ a : ℕ, a < 12 → ∀ b : ℕ, b < 16 →
      render_pixel_art (some c7Pixels) (30, 30, 40) (a : ℤ) (b : ℤ) =
        if a = 5 ∧ b = 7 then (255, 0, 0)
        else if a = 6 ∧ b = 8 then (0, 255, 0)
        else (30, 30, 40)) ∧
    (∀ (g : ℤ → ℤ → ℤ × ℤ × ℤ) (ox oy : ℤ) (p : Pixel),
      p.x + ox < 0 ∨ p.x + ox ≥ grid_cols ∨ p.y + oy < 0 ∨ p.y + oy ≥ grid_rows →
      paintPixel g ox oy p = g) := by
  refine ⟨by decide, by decide, ?_⟩
  intro g ox oy p h
  unfold paintPixel
  dsimp only
  rw [if_pos h]

/-- Witness for C7: the two painted cells, one background cell, and a
dropped out-of-bounds cell. -/
theorem C7_pixel_grid_centering_witness :
    render_pixel_art (some c7Pixels) (30, 30, 40) 5 7 = (255, 0, 0) ∧
    render_pixel_art (some c7Pixels) (30, 30, 40) 6 8 = (0, 255, 0) ∧
    render_pixel_art (some c7Pixels) (30, 30, 40) 0 0 = (30, 30, 40) ∧
    paintPixel (fun _ _ => (1, 2, 3)) 0 0 ⟨12, 0, "#FFFFFF"⟩ = fun _ _ => (1, 2, 3) := by
  have h5 := C7_pixel_grid_centering.2.1 5 (by norm_num) 7 (by norm_num)
  have h6 := C7_pixel_grid_centering.2.1 6 (by norm_num) 8 (by norm_num)
  have h0 := C7_pixel_grid_centering.2.1 0 (by norm_num) 0 (by norm_num)
  have hp := C7_pixel_grid_centering.2.2 (fun _ _ => (1, 2, 3)) 0 0 ⟨12, 0, "#FFFFFF"⟩
    (by decide)
  refine ⟨?_, ?_, ?_, hp⟩
  · simpa using h5
  · simpa using h6
  · simpa using h0

/-- C10: rendering a PixelGrid overlay with an empty cell list (and
likewise with the cleared `None` state) returns the background color at
every grid cell: the `if not self._pixel_art` guard returns before the
bounding-box computation is ever evaluated, so the empty input cannot
fail. -/
theorem C10_empty_pixel_art (bg : ℤ × ℤ × ℤ) (a b : ℤ) :
    render_pixel_art (some []) bg a b = bg ∧ render_pixel_art none bg a b = bg :=
  ⟨rfl, rfl⟩

/-- C4 (counterexample): with a fixed gaze target, one `advance` with the
positive delta 0.3 s makes the gaze jump from 0.5 to 2.0 — past the
target 1.0 — so the distance to the target grows from 0.5 to 1 and the
gaze overshoots: `gaze += (target − gaze) × dt × 10` is an unclamped lerp
and leaves `[gaze, target]` whenever `dt × 10 > 1`. -/
theorem C4_counterexample :
    c4S.gaze_x = 0.5 ∧ c4S.target_gaze_x = 1 ∧ c4S'.gaze_x = 2 ∧
    c4S'.target_gaze_x = 1 ∧
    ¬|c4S'.gaze_x - c4S'.target_gaze_x| < |c4S.gaze_x - c4S.target_gaze_x| ∧
    c4S'.target_gaze_x < c4S'.gaze_x := by
  have h1 : c4S.gaze_x = 0.5 := rfl
  have h2 : c4S.target_gaze_x = 1 := by
    norm_num [c4S, set_gaze, initAnimState, min_def, max_def]
  have h3 : c4S'.gaze_x = 2 := by
    rw [show c4S' = update_animation c4S 0.3 0.3 0 from rfl, update_gaze_x, h1, h2]
    norm_num [lerp]
  have h4 : c4S'.target_gaze_x = 1 := by
    rw [show c4S' = update_animation c4S 0.3 0.3 0 from rfl, update_target_gaze_x, h2]
  refine ⟨h1, h2, h3, h4, ?_, ?_⟩
  · rw [h1, h2, h3, h4]
    rw [abs_of_nonneg (by norm_num : (0 : ℚ) ≤ 2 - 1),
      abs_of_nonpos (by norm_num : (0.5 : ℚ) - 1 ≤ 0)]
    norm_num
  · rw [h3, h4]
    norm_num

/-- C4 (amended): gaze convergence is monotonic and never overshoots
PROVIDED each advance delta satisfies `dt × 10 ≤ 1` (dt ≤ 0.1 s, which
holds for every frame of the 30 fps loop): per axis the new gaze error is
the old error scaled by `1 − dt × 10 ∈ [0, 1)`, so the distance to the
fixed target strictly decreases while nonzero and the gaze stays between
its old value and the target. -/
theorem C4_amended (s : AnimState) (dt now r : ℚ) (hdt0 : 0 < dt)
    (hdt1 : dt ≤ 0.1) :
    (update_animation s dt now r).target_gaze_x = s.target_gaze_x ∧
    (update_animation s dt now r).target_gaze_y = s.target_gaze_y ∧
    (update_animation s dt now r).gaze_x - s.target_gaze_x
        = (1 - dt * 10) * (s.gaze_x - s.target_gaze_x) ∧
    (update_animation s dt now r).gaze_y - s.target_gaze_y
        = (1 - dt * 10) * (s.gaze_y - s.target_gaze_y) ∧
    (s.gaze_x ≠ s.target_gaze_x →
      |(update_animation s dt now r).gaze_x - s.target_gaze_x|
        < |s.gaze_x - s.target_gaze_x|) ∧
    (s.gaze_y ≠ s.target_gaze_y →
      |(update_animation s dt now r).gaze_y - s.target_gaze_y|
        < |s.gaze_y - s.target_gaze_y|) ∧
    min s.gaze_x s.target_gaze_x ≤ (update_animation s dt now r).gaze_x ∧
    (update_animation s dt now r).gaze_x ≤ max s.gaze_x s.target_gaze_x ∧
    min s.gaze_y s.target_gaze_y ≤ (update_animation s dt now r).gaze_y ∧
    (update_animation s dt now r).gaze_y ≤ max s.gaze_y s.target_gaze_y := by
  have hu0 : (0 : ℚ) < dt * 10 := by nlinarith
  have hu1 : dt * 10 ≤ 1 := by nlinarith
  obtain ⟨hxl, hxr⟩ := lerp_between s.gaze_x s.target_gaze_x (dt * 10) (le_of_lt hu0) hu1
  obtain ⟨hyl, hyr⟩ := lerp_between s.gaze_y s.target_gaze_y (dt * 10) (le_of_lt hu0) hu1
  refine ⟨update_target_gaze_x s dt now r, update_target_gaze_y s dt now r,
    ?_, ?_, ?_, ?_, ?_, ?_, ?_, ?_⟩
  · rw [update_gaze_x]; unfold lerp; ring
  · rw [update_gaze_y]; unfold lerp; ring
  · intro hne
    rw [update_gaze_x, lerp_abs_sub _ _ _ hu1]
    have habs : 0 < |s.gaze_x - s.target_gaze_x| := abs_pos.2 (sub_ne_zero.2 hne)
    nlinarith [mul_pos hu0 habs]
  · intro hne
    rw [update_gaze_y, lerp_abs_sub _ _ _ hu1]
    have habs : 0 < |s.gaze_y - s.target_gaze_y| := abs_pos.2 (sub_ne_zero.2 hne)
    nlinarith [mul_pos hu0 habs]
  · rw [update_gaze_x]; exact hxl
  · rw [update_gaze_x]; exact hxr
  · rw [update_gaze_y]; exact hyl
  · rw [update_gaze_y]; exact hyr

/-- Witness for C4 (amended) at a 0.05 s advance toward the right-edge
target. -/
theorem C4_amended_witness :
    (update_animation c4S 0.05 0.05 0).gaze_x - c4S.target_gaze_x
        = (1 - (0.05 : ℚ) * 10) * (c4S.gaze_x - c4S.target_gaze_x) ∧
    |(update_animation c4S 0.05 0.05 0).gaze_x - c4S.target_gaze_x|
        < |c4S.gaze_x - c4S.target_gaze_x| ∧
    (update_animation c4S 0.05 0.05 0).gaze_x ≤ max c4S.gaze_x c4S.target_gaze_x := by
  have h := C4_amended c4S 0.05 0.05 0 (by norm_num) (by norm_num)
  have hne : c4S.gaze_x ≠ c4S.target_gaze_x := by
    norm_num [c4S, set_gaze, initAnimState, min_def, max_def]
  exact ⟨h.2.2.1, h.2.2.2.2.1 hne, h.2.2.2.2.2.2.2.1⟩

/-- C5: for every valid emotion name `e`, `setEmotion(e)` followed by
advances of nonnegative deltas totalling at least 0.25 s yields
interpolated params exactly equal to `e`'s raw profile and
`currentEmotion = targetEmotion = e`; per advance, the transition
progress increases by `dt × 4` clamped to 1 and the current emotion is
assigned the target exactly when the clamped progress reaches 1. -/
theorem C5_transition_completion (s : AnimState) (e : String)
    (he : (EMOTIONS e).isSome) (steps : List (ℚ × ℚ × ℚ))
    (hdts : ∀ p ∈ steps, 0 ≤ p.1)
    (hsum : 1 / 4 ≤ (steps.map fun p => p.1).sum) :
    ((advanceAll (set_emotion s e).1 steps).current_emotion = e ∧
     (advanceAll (set_emotion s e).1 steps).target_emotion = e ∧
     (advanceAll (set_emotion s e).1 steps).current_params = emotionsGet e) ∧
    ∀ (s₂ : AnimState) (dt now r : ℚ),
      (update_animation s₂ dt now r).emotion_transition =
        (if s₂.emotion_transition < 1 then min 1 (s₂.emotion_transition + dt * 4)
         else s₂.emotion_transition) ∧
      (update_animation s₂ dt now r).current_emotion =
        (if s₂.emotion_transition < 1 ∧ 1 ≤ min 1 (s₂.emotion_transition + dt * 4)
         then s₂.target_emotion else s₂.current_emotion) := by
  constructor
  · have hinv0 : transitionInv e 0 (set_emotion s e).1 := by
      unfold set_emotion transitionInv
      rw [if_pos he]
      refine ⟨rfl, by norm_num, fun h => absurd h (by norm_num)⟩
    have h := transitionInv_advanceAll e 0 _ steps hinv0 hdts
    obtain ⟨hT, htr, hcur⟩ := h
    obtain ⟨hce, hcp⟩ := hcur (by linarith)
    exact ⟨hce, hT, hcp⟩
  · intro s₂ dt now r
    exact ⟨update_emotion_transition s₂ dt now r, update_current_emotion s₂ dt now r⟩

/-- Witness for C5: `setEmotion("happy")` then three 0.1 s advances. -/
theorem C5_transition_completion_witness :
    (advanceAll (set_emotion (initAnimState 0 0) "happy").1
        [(0.1, 0.1, 0), (0.1, 0.2, 0), (0.1, 0.3, 0)]).current_emotion = "happy" ∧
    (advanceAll (set_emotion (initAnimState 0 0) "happy").1
        [(0.1, 0.1, 0), (0.1, 0.2, 0), (0.1, 0.3, 0)]).current_params
      = emotionsGet "happy" := by
  have h := C5_transition_completion (initAnimState 0 0) "happy" (by rfl)
    [(0.1, 0.1, 0), (0.1, 0.2, 0), (0.1, 0.3, 0)]
    (by intro p hp; fin_cases hp <;> norm_num)
    (by norm_num [List.map_cons, List.map_nil, List.sum_cons, List.sum_nil])
  exact ⟨h.1.1, h.1.2.2⟩

/-- C8: on every reachable animation state — any state satisfying the
blink invariant, which holds initially and is preserved by every
`advance` with nonnegative delta — the instantaneous blink factor lies in
`[0, 1]`, and the effective eye height of `_draw_robot_eye` is floored at
3 pixels for every state whatsoever. -/
theorem C8_blink_bounds (s : AnimState) (dt now r t0 r0 : ℚ)
    (hs : blinkInv s) (hdt : 0 ≤ dt) :
    blinkInv (initAnimState t0 r0) ∧
    blinkInv (update_animation s dt now r) ∧
    0 ≤ get_blink_factor s ∧ get_blink_factor s ≤ 1 ∧
    3 ≤ effectiveEyeHeight s :=
  ⟨⟨by norm_num [initAnimState], by simp [initAnimState]⟩,
   update_blinkInv s dt now r hs.1 hdt,
   (get_blink_factor_mem s hs).1,
   (get_blink_factor_mem s hs).2,
   le_max_left 3 _⟩

/-- Witness for C8 on the initial state and a 0.05 s advance. -/
theorem C8_blink_bounds_witness :
    blinkInv (update_animation (initAnimState 0 0) 0.05 0.05 0.5) ∧
    0 ≤ get_blink_factor (initAnimState 0 0) ∧
    get_blink_factor (initAnimState 0 0) ≤ 1 ∧
    3 ≤ effectiveEyeHeight (initAnimState 0 0) := by
  have h := C8_blink_bounds (initAnimState 0 0) 0.05 0.05 0.5 0 0
    ⟨by norm_num [initAnimState], by simp [initAnimState]⟩ (by norm_num)
  exact ⟨h.2.1, h.2.2.1, h.2.2.2.1, h.2.2.2.2⟩

/-- C9: while a Text or PixelGrid overlay is active, a render tick leaves
the entire animation state untouched (the `_update_animation` call is
skipped) while still updating `last_time`; after clearing the overlays,
the next tick advances the frozen animation state by exactly the one
inter-tick delta `now₂ − now₁` — no frozen elapsed time is caught up. -/
theorem C9_overlay_freezes (s : RendererState) (now r now2 r2 : ℚ)
    (h : s.text_mode = true ∨ s.drawing_mode = true) :
    (render_tick s now r).anim = s.anim ∧
    (render_tick s now r).last_time = now ∧
    (render_tick (clear_pixel_art (clear_text (render_tick s now r))) now2 r2).anim
      = update_animation s.anim (now2 - now) now2 r2 := by
  have hcond : ¬((!({ s with last_time := now } : RendererState).drawing_mode) = true
      ∧ (!({ s with last_time := now } : RendererState).text_mode) = true) := by
    rcases h with h | h <;> simp [h]
  have h1 : render_tick s now r = { s with last_time := now } := by
    unfold render_tick
    dsimp only
    rw [if_neg hcond]
  refine ⟨by rw [h1], by rw [h1], ?_⟩
  rw [h1]
  simp [clear_text, clear_pixel_art, render_tick]

/-- Witness for C9 on a concrete Text-overlay state and ticks at times 1
and 2. -/
theorem C9_overlay_freezes_witness :
    (render_tick c1Text 1 0).anim = c1Text.anim ∧
    (render_tick (clear_pixel_art (clear_text (render_tick c1Text 1 0))) 2 0).anim
      = update_animation c1Text.anim (2 - 1) 2 0 := by
  have h := C9_overlay_freezes c1Text 1 0 2 0 (Or.inl rfl)
  exact ⟨h.1, h.2.2⟩

/-- C2 (counterexample): after `setEmotion("happy")`, a 0.1 s advance
(bringing the blend to 40 %), `setEmotion("sad")` and one further
0.025 s advance, the interpolated params are OUTSIDE the convex hull of
the interruption blend, the happy profile and the sad profile: the code
does not restart interpolation from the blended values — `setEmotion`
leaves `currentEmotion` at `"neutral"`, so the params snap back toward
the raw neutral profile (eye height 59.5, while every hull point has eye
height at most 58). -/
theorem C2_counterexample :
    ¬ inHull3 c2Mid.current_params happyParams sadParams
        (update_animation c2Sad 0.025 0.125 0).current_params := by
  have h2 : c2Mid.current_params.eye_height = 58 := by
    norm_num [c2Mid, c2Happy, update_animation, emotionStep, interpStep, gazeStep,
      faceOffsetStep, blinkStep, blinkTrigger, blinkAdvance, set_emotion, initAnimState,
      EMOTIONS, emotionsGet, neutralParams, happyParams, lerpParams, lerp]
  have h4 : (update_animation c2Sad 0.025 0.125 0).current_params.eye_height = 59.5 := by
    norm_num [c2Sad, c2Mid, c2Happy, update_animation, emotionStep, interpStep, gazeStep,
      faceOffsetStep, blinkStep, blinkTrigger, blinkAdvance, set_emotion, initAnimState,
      EMOTIONS, emotionsGet, neutralParams, happyParams, sadParams, lerpParams, lerp]
  rintro ⟨a, b, c, ha, hb, hc, habc, heh, -⟩
  rw [h4, h2] at heh
  norm_num [happyParams, sadParams] at heh
  linarith

/-- C2 (amended): an interrupting `setEmotion("sad")` does NOT restart
interpolation from the mid-flight blend; `currentEmotion` stays
`"neutral"`, so from the first subsequent advance on the interpolated
params lie on the segment from the raw neutral profile to the sad
profile (and hence in the convex hull of the neutral, happy and sad raw
profiles, but not generally in the hull containing the interruption
blend). -/
theorem C2_amended (dt now r : ℚ) (hdt : 0 ≤ dt) (rest : List (ℚ × ℚ × ℚ))
    (hrest : ∀ p ∈ rest, 0 ≤ p.1) :
    ∃ t : ℚ, 0 ≤ t ∧ t ≤ 1 ∧
      (advanceAll c2Sad ((dt, now, r) :: rest)).current_params
        = lerpParams neutralParams sadParams t := by
  have hseg : segInv c2Sad := by
    refine ⟨?_, Or.inl ?_, ?_, ?_⟩
    · norm_num [c2Sad, set_emotion, EMOTIONS]
    · norm_num [c2Sad, c2Mid, c2Happy, update_animation, emotionStep, interpStep,
        gazeStep, faceOffsetStep, blinkStep, blinkTrigger, blinkAdvance, set_emotion,
        initAnimState, EMOTIONS, emotionsGet, neutralParams, happyParams, lerpParams, lerp]
    · norm_num [c2Sad, set_emotion, EMOTIONS]
    · norm_num [c2Sad, set_emotion, EMOTIONS]
  obtain ⟨hinv', hex⟩ := segInv_step c2Sad dt now r hseg hdt
  obtain ⟨hinv'', hor⟩ := segInv_advance (update_animation c2Sad dt now r) rest hinv' hrest
  rcases hor with heq | ⟨t, ht0, ht1, hp⟩
  · obtain ⟨t, ht0, ht1, hp⟩ := hex
    exact ⟨t, ht0, ht1, by rw [advanceAll_cons, heq]; exact hp⟩
  · exact ⟨t, ht0, ht1, by rw [advanceAll_cons]; exact hp⟩

/-- Witness for C2 (amended): one 0.025 s advance after the
interruption. -/
theorem C2_amended_witness :
    ∃ t : ℚ, 0 ≤ t ∧ t ≤ 1 ∧
      (advanceAll c2Sad [(0.025, 0.125, 0)]).current_params
        = lerpParams neutralParams sadParams t :=
  C2_amended 0.025 0.125 0 (by norm_num) [] (by simp)

end Luna
